import Mathlib

/-!
Verification of the background-remover component
(`src/Component/BackgroundRemover.jsx`).

The core data transform is the alpha-compositing loop of
`processWithTensorFlow` (lines 71-75):

```js
for (let i = 0; i < data.length; i += 4) {
  if (segmentation.data[i / 4] === 0) {
    data[i + 3] = 0; // Remove background
  }
}
```

`data` is the flat RGBA byte buffer of the canvas (`ImageData.data`, a
typed array: out-of-range writes are silent no-ops) and
`segmentation.data` is the per-pixel mask (out-of-range reads yield
`undefined`, which is not `=== 0`, so such pixels are left unchanged).

We embed the buffer and the mask as `List Nat`.  The loop variable `i`
steps through byte indices in strides of 4; since `i = 4 * p` for the
pixel index `p`, we translate it as a recursion over pixel indices,
performing exactly the same reads and writes.
-/

namespace BackgroundRemover

/-- One iteration of the masking loop at pixel index `p`: if the mask
value at `p` is 0, write 0 to the alpha byte `4 * p + 3`.  An
out-of-range mask read yields `undefined` in JS, never equal to 0, so
`getD` with the nonzero default 1 reproduces that; `List.set` out of
range is a no-op, matching typed-array writes. -/
def maskStep (mask : List Nat) (p : Nat) (data : List Nat) : List Nat :=
  if mask.getD p 1 = 0 then data.set (4 * p + 3) 0 else data

/-- The masking loop: `k` remaining iterations, current pixel index `p`. -/
def compositeIter (mask : List Nat) : Nat → Nat → List Nat → List Nat
  | 0, _, data => data
  | k + 1, p, data => compositeIter mask k (p + 1) (maskStep mask p data)

/-- The Alpha Compositor of lines 71-75: the loop runs while the byte
index `4 * p` is below `data.length`, i.e. for `⌈data.length / 4⌉`
iterations starting at pixel 0. -/
def alphaComposite (data mask : List Nat) : List Nat :=
  compositeIter mask ((data.length + 3) / 4) 0 data

theorem maskStep_length (mask : List Nat) (p : Nat) (data : List Nat) :
    (maskStep mask p data).length = data.length := by
  unfold maskStep
  split <;> simp

theorem compositeIter_length (mask : List Nat) (k : Nat) :
    ∀ (p : Nat) (data : List Nat),
      (compositeIter mask k p data).length = data.length := by
  induction k with
  | zero => intro p data; rfl
  | succ k ih =>
      intro p data
      rw [compositeIter, ih, maskStep_length]

theorem map_zero_getElem? (data : List Nat) (j : Nat) :
    (data[j]?).map (fun _ => 0) = if j < data.length then some 0 else none := by
  by_cases h : j < data.length
  · rw [List.getElem?_eq_getElem h]
    simp [h]
  · rw [List.getElem?_eq_none (by omega)]
    simp [h]

/-- Pointwise characterization of the masking loop: byte `j` is zeroed
exactly when it is an alpha byte whose pixel index lies in the range the
loop visits and whose mask value is 0; every other byte is unchanged. -/
theorem compositeIter_getElem? (mask : List Nat) (k : Nat) :
    ∀ (p : Nat) (data : List Nat) (j : Nat),
      (compositeIter mask k p data)[j]? =
        if j % 4 = 3 ∧ p ≤ j / 4 ∧ j / 4 < p + k ∧ mask.getD (j / 4) 1 = 0
        then (data[j]?).map (fun _ => 0)
        else data[j]? := by
  induction k with
  | zero =>
      intro p data j
      rw [compositeIter, if_neg]
      rintro ⟨-, h1, h2, -⟩
      omega
  | succ k ih =>
      intro p data j
      rw [compositeIter, ih]
      unfold maskStep
      by_cases hm : mask.getD p 1 = 0
      · rw [if_pos hm]
        by_cases hj : j = 4 * p + 3
        · subst hj
          have hmod : (4 * p + 3) % 4 = 3 := by omega
          have hdiv : (4 * p + 3) / 4 = p := by omega
          rw [if_neg (by rintro ⟨-, h1, -, -⟩; omega)]
          rw [if_pos ⟨hmod, by omega, by omega, by rw [hdiv]; exact hm⟩]
          rw [List.getElem?_set, if_pos rfl, map_zero_getElem?]
        · rw [List.getElem?_set_ne (by omega)]
          by_cases hc : j % 4 = 3 ∧ p + 1 ≤ j / 4 ∧ j / 4 < p + 1 + k ∧
              mask.getD (j / 4) 1 = 0
          · rw [if_pos hc, if_pos ⟨hc.1, by omega, by omega, hc.2.2.2⟩]
          · rw [if_neg hc, if_neg]
            rintro ⟨h1, h2, h3, h4⟩
            apply hc
            refine ⟨h1, ?_, by omega, h4⟩
            omega
      · rw [if_neg hm]
        by_cases hc : j % 4 = 3 ∧ p + 1 ≤ j / 4 ∧ j / 4 < p + 1 + k ∧
            mask.getD (j / 4) 1 = 0
        · rw [if_pos hc, if_pos ⟨hc.1, by omega, by omega, hc.2.2.2⟩]
        · rw [if_neg hc, if_neg]
          rintro ⟨h1, h2, h3, h4⟩
          apply hc
          have hne : j / 4 ≠ p := by
            intro he
            rw [he] at h4
            exact hm h4
          refine ⟨h1, by omega, by omega, h4⟩

/-- Pointwise characterization of the Alpha Compositor. -/
theorem alphaComposite_getElem? (data mask : List Nat) (j : Nat) :
    (alphaComposite data mask)[j]? =
      if j % 4 = 3 ∧ j < data.length ∧ mask.getD (j / 4) 1 = 0
      then some 0
      else data[j]? := by
  rw [alphaComposite, compositeIter_getElem?]
  by_cases hj : j < data.length
  · have hdiv : j / 4 < 0 + (data.length + 3) / 4 := by omega
    by_cases h3 : j % 4 = 3
    · by_cases hm : mask.getD (j / 4) 1 = 0
      · rw [if_pos ⟨h3, Nat.zero_le _, hdiv, hm⟩, if_pos ⟨h3, hj, hm⟩,
          map_zero_getElem?, if_pos hj]
      · rw [if_neg (by rintro ⟨-, -, -, h⟩; exact hm h),
          if_neg (by rintro ⟨-, -, h⟩; exact hm h)]
    · rw [if_neg (by rintro ⟨h, -, -, -⟩; exact h3 h),
        if_neg (by rintro ⟨h, -, -⟩; exact h3 h)]
  · rw [List.getElem?_eq_none (by omega)]
    by_cases hc : j % 4 = 3 ∧ 0 ≤ j / 4 ∧ j / 4 < 0 + (data.length + 3) / 4 ∧
        mask.getD (j / 4) 1 = 0
    · rw [if_pos hc, if_neg (by rintro ⟨-, h, -⟩; omega)]
      simp
    · rw [if_neg hc, if_neg (by rintro ⟨-, h, -⟩; omega)]

theorem alphaComposite_length (data mask : List Nat) :
    (alphaComposite data mask).length = data.length := by
  rw [alphaComposite, compositeIter_length]

/-- The Alpha Compositor as §4.1 of the specification words its
dimension-mismatch behaviour: callers must guarantee matching
dimensions, otherwise the operation explicitly fails with a
Dimension-Mismatch error.  Stated only to compare the source's actual
behaviour against the spec's contract; the source loop performs no such
check. -/
def alphaCompositeChecked (data mask : List Nat) : Except String (List Nat) :=
  if data.length = 4 * mask.length then Except.ok (alphaComposite data mask)
  else Except.error "Dimension-Mismatch"

/-- C1: for buffers and masks of matching pixel count, a pixel whose
mask value is 0 gets alpha 0, a pixel whose mask value is nonzero is
unchanged in all four channels, and the R, G, B channels of every pixel
are unchanged. -/
theorem alphaComposite_mask_contract (data mask : List Nat)
    (h : data.length = 4 * mask.length) (i : Nat) (hi : i < mask.length) :
    (mask.getD i 1 = 0 → (alphaComposite data mask)[4 * i + 3]? = some 0) ∧
    (mask.getD i 1 ≠ 0 →
      ∀ c, c < 4 → (alphaComposite data mask)[4 * i + c]? = data[4 * i + c]?) ∧
    (∀ c, c < 3 → (alphaComposite data mask)[4 * i + c]? = data[4 * i + c]?) := by
  have hdiv3 : (4 * i + 3) / 4 = i := by omega
  refine ⟨?_, ?_, ?_⟩
  · intro hm
    rw [alphaComposite_getElem?,
      if_pos ⟨by omega, by omega, by rw [hdiv3]; exact hm⟩]
  · intro hm c hc
    rw [alphaComposite_getElem?, if_neg]
    rintro ⟨h3, -, h0⟩
    have hc3 : c = 3 := by omega
    subst hc3
    rw [hdiv3] at h0
    exact hm h0
  · intro c hc
    rw [alphaComposite_getElem?, if_neg]
    rintro ⟨h3, -, -⟩
    omega

/-- Witness for C1 at a concrete 2-pixel buffer and mask `[0, 1]`. -/
theorem alphaComposite_mask_contract_witness :
    ([10, 20, 30, 40, 50, 60, 70, 80] : List Nat).length =
      4 * ([0, 1] : List Nat).length ∧
    (alphaComposite [10, 20, 30, 40, 50, 60, 70, 80] [0, 1])[3]? = some 0 ∧
    (alphaComposite [10, 20, 30, 40, 50, 60, 70, 80] [0, 1])[7]? =
      ([10, 20, 30, 40, 50, 60, 70, 80] : List Nat)[7]? := by
  refine ⟨by decide, ?_, ?_⟩
  · exact (alphaComposite_mask_contract [10, 20, 30, 40, 50, 60, 70, 80]
      [0, 1] (by decide) 0 (by decide)).1 (by decide)
  · exact (alphaComposite_mask_contract [10, 20, 30, 40, 50, 60, 70, 80]
      [0, 1] (by decide) 1 (by decide)).2.1 (by decide) 3 (by decide)

/-- C2: on a mask whose elements are all nonzero, the compositor is the
identity on the buffer. -/
theorem alphaComposite_identity_on_foreground (data mask : List Nat)
    (h : data.length = 4 * mask.length)
    (hmask : ∀ x ∈ mask, x ≠ 0) :
    alphaComposite data mask = data := by
  apply List.ext_getElem?
  intro j
  rw [alphaComposite_getElem?, if_neg]
  rintro ⟨-, -, hm⟩
  by_cases hr : j / 4 < mask.length
  · rw [List.getD_eq_getElem mask 1 hr] at hm
    exact hmask _ (List.getElem_mem hr) hm
  · rw [List.getD_eq_default _ _ (by omega)] at hm
    exact one_ne_zero hm

/-- Witness for C2 at a concrete 1-pixel buffer and the mask `[2]`. -/
theorem alphaComposite_identity_on_foreground_witness :
    ([5, 6, 7, 8] : List Nat).length = 4 * ([2] : List Nat).length ∧
    alphaComposite [5, 6, 7, 8] [2] = [5, 6, 7, 8] :=
  ⟨by decide,
    alphaComposite_identity_on_foreground [5, 6, 7, 8] [2] (by decide)
      (by decide)⟩

/-- C3: on an all-zero mask of matching pixel count, every pixel's alpha
byte becomes 0 and every non-alpha byte is unchanged. -/
theorem alphaComposite_all_background (data mask : List Nat)
    (h : data.length = 4 * mask.length)
    (hmask : ∀ x ∈ mask, x = 0) :
    (∀ i, i < mask.length → (alphaComposite data mask)[4 * i + 3]? = some 0) ∧
    (∀ j, j % 4 ≠ 3 → (alphaComposite data mask)[j]? = data[j]?) := by
  constructor
  · intro i hi
    rw [alphaComposite_getElem?, if_pos]
    refine ⟨by omega, by omega, ?_⟩
    have hdiv : (4 * i + 3) / 4 = i := by omega
    rw [hdiv, List.getD_eq_getElem mask 1 hi]
    exact hmask _ (List.getElem_mem hi)
  · intro j hj
    rw [alphaComposite_getElem?, if_neg]
    rintro ⟨h3, -, -⟩
    exact hj h3

/-- Witness for C3 at a concrete 1-pixel buffer and the mask `[0]`. -/
theorem alphaComposite_all_background_witness :
    ([9, 9, 9, 9] : List Nat).length = 4 * ([0] : List Nat).length ∧
    (alphaComposite [9, 9, 9, 9] [0])[3]? = some 0 ∧
    (alphaComposite [9, 9, 9, 9] [0])[0]? = ([9, 9, 9, 9] : List Nat)[0]? := by
  refine ⟨by decide, ?_, ?_⟩
  · exact (alphaComposite_all_background [9, 9, 9, 9] [0] (by decide)
      (by decide)).1 0 (by decide)
  · exact (alphaComposite_all_background [9, 9, 9, 9] [0] (by decide)
      (by decide)).2 0 (by decide)

/-- C4 counterexample: on the mismatched pair of a 2-pixel buffer and a
1-element mask, the source compositor does not fail: it returns an
ordinary buffer (masking pixel 0 and leaving pixel 1 untouched), while
the spec's checked contract demands a Dimension-Mismatch error. -/
theorem alphaComposite_mismatch_counterexample :
    alphaComposite [10, 20, 30, 40, 50, 60, 70, 80] [0] =
      [10, 20, 30, 0, 50, 60, 70, 80] ∧
    alphaCompositeChecked [10, 20, 30, 40, 50, 60, 70, 80] [0] =
      Except.error "Dimension-Mismatch" :=
  ⟨rfl, rfl⟩

/-- C4 amended: on mismatched lengths the compositor does not fail; it
returns a buffer of the same length in which every byte whose pixel
index has no mask entry is left unchanged (an out-of-range mask read
behaves as foreground). -/
theorem alphaComposite_mismatch_total (data mask : List Nat)
    (h : data.length ≠ 4 * mask.length) :
    (alphaComposite data mask).length = data.length ∧
    ∀ j, mask.length ≤ j / 4 → (alphaComposite data mask)[j]? = data[j]? := by
  refine ⟨alphaComposite_length data mask, fun j hj => ?_⟩
  rw [alphaComposite_getElem?, if_neg]
  rintro ⟨-, -, hm⟩
  rw [List.getD_eq_default _ _ hj] at hm
  exact one_ne_zero hm

/-- Witness for the amended C4 at a 2-pixel buffer with a 1-element
mask: pixel 1's alpha byte (index 7) is unchanged. -/
theorem alphaComposite_mismatch_total_witness :
    ([1, 2, 3, 4, 5, 6, 7, 8] : List Nat).length ≠
      4 * ([0] : List Nat).length ∧
    (alphaComposite [1, 2, 3, 4, 5, 6, 7, 8] [0])[7]? =
      ([1, 2, 3, 4, 5, 6, 7, 8] : List Nat)[7]? :=
  ⟨by decide,
    (alphaComposite_mismatch_total [1, 2, 3, 4, 5, 6, 7, 8] [0]
      (by decide)).2 7 (by decide)⟩

/-- C5: the compositor is idempotent in the buffer for a fixed mask. -/
theorem alphaComposite_idempotent (data mask : List Nat)
    (h : data.length = 4 * mask.length) :
    alphaComposite (alphaComposite data mask) mask =
      alphaComposite data mask := by
  apply List.ext_getElem?
  intro j
  have hL := alphaComposite_getElem? (alphaComposite data mask) mask j
  rw [hL, alphaComposite_length]
  by_cases hc : j % 4 = 3 ∧ j < data.length ∧ mask.getD (j / 4) 1 = 0
  · rw [if_pos hc, alphaComposite_getElem?, if_pos hc]
  · rw [if_neg hc]

/-- Witness for C5 at a concrete 1-pixel buffer and the mask `[0]`. -/
theorem alphaComposite_idempotent_witness :
    ([1, 2, 3, 4] : List Nat).length = 4 * ([0] : List Nat).length ∧
    alphaComposite (alphaComposite [1, 2, 3, 4] [0]) [0] =
      alphaComposite [1, 2, 3, 4] [0] :=
  ⟨by decide, alphaComposite_idempotent [1, 2, 3, 4] [0] (by decide)⟩

/-- C6: the end-to-end 2×2 scenario: buffer
`[(255,0,0,255), (0,255,0,255), (0,0,255,255), (255,255,255,255)]` with
mask `[1,0,1,0]` yields
`[(255,0,0,255), (0,255,0,0), (0,0,255,255), (255,255,255,0)]`. -/
theorem alphaComposite_sample_2x2 :
    alphaComposite
      [255, 0, 0, 255, 0, 255, 0, 255, 0, 0, 255, 255, 255, 255, 255, 255]
      [1, 0, 1, 0] =
      [255, 0, 0, 255, 0, 255, 0, 0, 0, 0, 255, 255, 255, 255, 255, 0] := by
  rfl

/-- C9: the compositor preserves the buffer's shape: the output has
exactly the input's length. -/
theorem alphaComposite_preserves_shape (data mask : List Nat)
    (h : data.length = 4 * mask.length) :
    (alphaComposite data mask).length = data.length :=
  alphaComposite_length data mask

/-- Witness for C9 at a concrete 1-pixel buffer. -/
theorem alphaComposite_preserves_shape_witness :
    ([1, 2, 3, 4] : List Nat).length = 4 * ([1] : List Nat).length ∧
    (alphaComposite [1, 2, 3, 4] [1]).length =
      ([1, 2, 3, 4] : List Nat).length :=
  ⟨by decide, alphaComposite_preserves_shape [1, 2, 3, 4] [1] (by decide)⟩

/-- C10: the compositor never increases alpha: at every pixel the output
alpha byte is at most the input alpha byte. -/
theorem alphaComposite_alpha_monotone (data mask : List Nat)
    (h : data.length = 4 * mask.length) (i : Nat) :
    ((alphaComposite data mask)[4 * i + 3]?).getD 0 ≤
      (data[4 * i + 3]?).getD 0 := by
  rw [alphaComposite_getElem?]
  split
  · simp
  · exact le_refl _

/-- Witness for C10 at a concrete 1-pixel buffer with alpha 5 and the
mask `[0]`. -/
theorem alphaComposite_alpha_monotone_witness :
    ([9, 9, 9, 5] : List Nat).length = 4 * ([0] : List Nat).length ∧
    ((alphaComposite [9, 9, 9, 5] [0])[4 * 0 + 3]?).getD 0 ≤
      (([9, 9, 9, 5] : List Nat)[4 * 0 + 3]?).getD 0 :=
  ⟨by decide, alphaComposite_alpha_monotone [9, 9, 9, 5] [0] (by decide) 0⟩

/-!
State-level model of the component.

The React state of `BackgroundRemover` is four `useState` cells:
`selectedImage`, `processedImage`, `method`, `loading`.  `processImage`
(lines 30-45) guards on `selectedImage`, sets `loading`, dispatches on
`method` to `processWithTensorFlow` or `processWithImgly` (each of which
catches all of its own errors and logs them), and clears `loading`.

Everything the browser or a library decides (model loading, image
decoding, segmentation, `fetch`, `removeBackground`) is an external
input to this logic; we pass each run's outcome in as a parameter and
record the externally visible actions (console error logs, the fetch,
the backend invocations) in an event list.
-/

/-- The `method` state: which backend is selected (line 9). -/
inductive Method
  | tensorflow
  | imgly
deriving DecidableEq, Repr

/-- The four `useState` cells of the component (lines 7-10). -/
structure ComponentState where
  selectedImage : Option String
  processedImage : Option String
  method : Method
  loading : Bool
deriving DecidableEq, Repr

/-- Externally visible actions performed during a processing run. -/
inductive Event
  | consoleError (msg : String)
  | fetchCall (url : String)
  | backendCall (m : Method)
deriving DecidableEq, Repr

/-- Outcome of the TensorFlow path's external steps (model load, image
load, segmentation): either some step throws, or segmentation yields
the canvas's RGBA byte buffer and the per-pixel mask. -/
inductive TFOutcome
  | error (msg : String)
  | ok (data : List Nat) (mask : List Nat)
deriving DecidableEq, Repr

/-- Outcome of the Imgly path's external steps. -/
inductive ImglyOutcome
  | fetchError (msg : String)
  | fetchNotOk
  | backendError (msg : String)
  | invalidResult
  | ok (resultBlob : String)
deriving DecidableEq, Repr

def TFOutcome.isError : TFOutcome → Bool
  | .error _ => true
  | .ok _ _ => false

def ImglyOutcome.isError : ImglyOutcome → Bool
  | .fetchError _ => true
  | .fetchNotOk => true
  | .backendError _ => true
  | .invalidResult => true
  | .ok _ => false

/-- `processWithTensorFlow` (lines 48-82): the whole body is one `try`;
on success the masked buffer is drawn back and `processedImage` is set
to the canvas data URL (`enc` stands for `canvas.toDataURL`); any throw
is caught and logged, leaving the state untouched. -/
def processWithTensorFlow (enc : List Nat → String) (out : TFOutcome)
    (s : ComponentState) : ComponentState × List Event :=
  match out with
  | .error msg =>
      (s, [.backendCall .tensorflow, .consoleError msg])
  | .ok data mask =>
      ({s with processedImage := some (enc (alphaComposite data mask))},
        [.backendCall .tensorflow])

/-- `processWithImgly` (lines 85-130): guard on `selectedImage`
(lines 86-89), fetch the image, check `response.ok`, call
`removeBackground`, check the result is a `Blob`, and set
`processedImage` to an object URL of the result (`mkUrl` stands for
`URL.createObjectURL`); every throw is caught and logged. -/
def processWithImgly (mkUrl : String → String) (out : ImglyOutcome)
    (s : ComponentState) : ComponentState × List Event :=
  match s.selectedImage with
  | none => (s, [.consoleError "No image selected."])
  | some url =>
      match out with
      | .fetchError msg =>
          (s, [.fetchCall url, .consoleError msg])
      | .fetchNotOk =>
          (s, [.fetchCall url, .consoleError "Failed to fetch image"])
      | .backendError msg =>
          (s, [.fetchCall url, .backendCall .imgly, .consoleError msg])
      | .invalidResult =>
          (s, [.fetchCall url, .backendCall .imgly,
            .consoleError "Imgly returned an invalid result."])
      | .ok blob =>
          ({s with processedImage := some (mkUrl blob)},
            [.fetchCall url, .backendCall .imgly])

/-- `processImage` (lines 30-45): return immediately when no image is
selected; otherwise set `loading`, dispatch on `method`, and clear
`loading`.  The inner handlers catch their own errors, so the outer
`catch` never fires in this model. -/
def processImage (enc : List Nat → String) (mkUrl : String → String)
    (tf : TFOutcome) (im : ImglyOutcome) (s : ComponentState) :
    ComponentState × List Event :=
  match s.selectedImage with
  | none => (s, [])
  | some _ =>
      let s1 := {s with loading := true}
      let r :=
        match s1.method with
        | .tensorflow => processWithTensorFlow enc tf s1
        | .imgly => processWithImgly mkUrl im s1
      ({r.1 with loading := false}, r.2)

/-- C7: with the Imgly backend selected and no image selected,
`processImage` performs no action at all: the state is returned
unchanged and no event (in particular no fetch and no backend call) is
emitted. -/
theorem processImage_no_image (enc : List Nat → String)
    (mkUrl : String → String) (tf : TFOutcome) (im : ImglyOutcome)
    (s : ComponentState) (hm : s.method = Method.imgly)
    (hs : s.selectedImage = none) :
    processImage enc mkUrl tf im s = (s, []) := by
  unfold processImage
  rw [hs]

/-- Witness for C7 at the idle state with the Imgly backend. -/
theorem processImage_no_image_witness :
    (⟨none, none, Method.imgly, false⟩ : ComponentState).method =
      Method.imgly ∧
    processImage (fun _ => "") (fun u => u) (TFOutcome.ok [] [])
      (ImglyOutcome.ok "b") ⟨none, none, Method.imgly, false⟩ =
      (⟨none, none, Method.imgly, false⟩, []) :=
  ⟨rfl, processImage_no_image _ _ _ _ _ rfl rfl⟩

/-- C8: whenever the run's external outcome on the selected backend is
an error (model/image load failure, fetch failure, backend failure, or
an invalid backend result), `processImage` leaves `processedImage`
unchanged (no partial result), returns `loading` to `false`, and a
console error is logged. -/
theorem processImage_error_aborts (enc : List Nat → String)
    (mkUrl : String → String) (tf : TFOutcome) (im : ImglyOutcome)
    (s : ComponentState) (u : String) (hs : s.selectedImage = some u)
    (htf : s.method = Method.tensorflow → tf.isError = true)
    (him : s.method = Method.imgly → im.isError = true) :
    (processImage enc mkUrl tf im s).1.processedImage = s.processedImage ∧
    (processImage enc mkUrl tf im s).1.loading = false ∧
    ∃ msg, Event.consoleError msg ∈ (processImage enc mkUrl tf im s).2 := by
  obtain ⟨sel, proc, m, ld⟩ := s
  simp only at hs
  subst hs
  cases m with
  | tensorflow =>
      have he := htf rfl
      cases tf with
      | error msg =>
          exact ⟨rfl, rfl, msg, by
            simp [processImage, processWithTensorFlow]⟩
      | ok d mk => simp [TFOutcome.isError] at he
  | imgly =>
      have he := him rfl
      cases im with
      | fetchError msg =>
          exact ⟨rfl, rfl, msg, by
            simp [processImage, processWithImgly]⟩
      | fetchNotOk =>
          exact ⟨rfl, rfl, "Failed to fetch image", by
            simp [processImage, processWithImgly]⟩
      | backendError msg =>
          exact ⟨rfl, rfl, msg, by
            simp [processImage, processWithImgly]⟩
      | invalidResult =>
          exact ⟨rfl, rfl, "Imgly returned an invalid result.", by
            simp [processImage, processWithImgly]⟩
      | ok blob => simp [ImglyOutcome.isError] at he

/-- Witness for C8: an Imgly run whose fetch response is not ok keeps
the previous processed image and ends with `loading = false`. -/
theorem processImage_error_aborts_witness :
    (⟨some "img", some "old", Method.imgly, false⟩ :
      ComponentState).selectedImage = some "img" ∧
    (processImage (fun _ => "") (fun u => u) (TFOutcome.error "e")
      ImglyOutcome.fetchNotOk
      ⟨some "img", some "old", Method.imgly, false⟩).1.processedImage =
      some "old" ∧
    (processImage (fun _ => "") (fun u => u) (TFOutcome.error "e")
      ImglyOutcome.fetchNotOk
      ⟨some "img", some "old", Method.imgly, false⟩).1.loading = false := by
  refine ⟨rfl, ?_, ?_⟩
  · exact (processImage_error_aborts (fun _ => "") (fun u => u)
      (TFOutcome.error "e") ImglyOutcome.fetchNotOk
      ⟨some "img", some "old", Method.imgly, false⟩ "img" rfl
      (by intro h; cases h) (by intro h; rfl)).1
  · exact (processImage_error_aborts (fun _ => "") (fun u => u)
      (TFOutcome.error "e") ImglyOutcome.fetchNotOk
      ⟨some "img", some "old", Method.imgly, false⟩ "img" rfl
      (by intro h; cases h) (by intro h; rfl)).2.1

end BackgroundRemover
